import Mathlib

/-!
Verification of the skulk MCP client runtime.

Shallow embedding of the core of the repository:
  - src/transport.rs : the stdio transport (child-process behaviour abstracted
    as an oracle stream of read/write outcomes),
  - src/connection.rs : McpConnection and its JSON-RPC exchange discipline,
  - src/manager.rs : McpManager (the Registry) and its three maps,
  - src/types.rs / src/error.rs : data and error types with their serde
    parsing behaviour.

JSON values are modelled by an inductive `Json`; numbers are integers (the
protocol's numeric fields are request ids and error codes).  HashMaps are
modelled as association lists with unique keys: `ainsert` replaces, matching
HashMap::insert; iteration order of a HashMap is unspecified, so the list
order is one admissible order.
-/

/-- Model of serde_json::Value.  Numbers are integers: the only numeric
fields the program reads or writes are request ids (u64) and error codes
(i64). -/
inductive Json where
  | null
  | bool (b : Bool)
  | num (n : Int)
  | str (s : String)
  | arr (xs : List Json)
  | obj (fields : List (String × Json))

/-- First-match lookup in an association list (serde_json maps have unique
keys; the Registry's HashMaps likewise). -/
def alookup {α : Type} (k : String) : List (String × α) → Option α
  | [] => none
  | (k2, v) :: rest => if k2 = k then some v else alookup k rest

/-- Remove every binding of a key (HashMap::remove). -/
def aerase {α : Type} (k : String) : List (String × α) → List (String × α)
  | [] => []
  | (k2, v) :: rest => if k2 = k then aerase k rest else (k2, v) :: aerase k rest

/-- HashMap::insert: replaces any existing binding of the key. -/
def ainsert {α : Type} (k : String) (v : α) (l : List (String × α)) : List (String × α) :=
  (k, v) :: aerase k l

/-- serde_json Value::get on a key: a field of an object, None otherwise. -/
def Json.get (j : Json) (k : String) : Option Json :=
  match j with
  | .obj fields => alookup k fields
  | _ => none

/-- serde_json's Index impl, `value[k]`: the field if present on an object,
Null in every other case. -/
def Json.index (j : Json) (k : String) : Json :=
  match j.get k with
  | some v => v
  | none => Json.null

/-- Value::as_array. -/
def Json.asArray : Json → Option (List Json)
  | .arr xs => some xs
  | _ => none

/-- Value::as_str. -/
def Json.asStr : Json → Option String
  | .str s => some s
  | _ => none

/-- Value::as_i64 (numbers are modelled as integers already). -/
def Json.asI64 : Json → Option Int
  | .num n => some n
  | _ => none

/-- Escaping of one character inside a JSON string literal, as serde_json's
compact serializer does for the common escapes (control characters other
than newline, tab and carriage return are not exercised by any claim). -/
def escChar (c : Char) : String :=
  if c = '\\' then "\\\\"
  else if c = '"' then "\\\""
  else if c = '\n' then "\\n"
  else if c = '\t' then "\\t"
  else if c = '\r' then "\\r"
  else String.singleton c

/-- serde_json string rendering. -/
def renderString (s : String) : String :=
  "\"" ++ String.join (s.toList.map escChar) ++ "\""

mutual

/-- Value::to_string: compact JSON serialization (used for the message of a
ToolError). -/
def Json.render : Json → String
  | .null => "null"
  | .bool true => "true"
  | .bool false => "false"
  | .num n => toString n
  | .str s => renderString s
  | .arr xs => "[" ++ Json.renderArr xs ++ "]"
  | .obj fs => "\x7b" ++ Json.renderObj fs ++ "\x7d"

/-- Comma-separated rendering of array elements. -/
def Json.renderArr : List Json → String
  | [] => ""
  | [x] => Json.render x
  | x :: y :: rest => Json.render x ++ "," ++ Json.renderArr (y :: rest)

/-- Comma-separated rendering of object fields. -/
def Json.renderObj : List (String × Json) → String
  | [] => ""
  | [(k, v)] => renderString k ++ ":" ++ Json.render v
  | (k, v) :: q :: rest => renderString k ++ ":" ++ Json.render v ++ "," ++ Json.renderObj (q :: rest)

end

/-- src/error.rs: the McpError taxonomy. -/
inductive McpError where
  | ServerNotFound (id : String)
  | NotConnected
  | TransportError (msg : String)
  | ProtocolError (msg : String)
  | RpcError (code : Int) (message : String)
  | ToolError (msg : String)
  | Timeout
  | IoError (msg : String)
deriving DecidableEq

/-- src/types.rs ToolSchema: name (required string), description (serde
default, empty when absent), inputSchema (required, any JSON value). -/
structure ToolSchema where
  name : String
  description : String
  input_schema : Json

/-- src/types.rs ToolsCapability: field list_changed, default false. -/
structure ToolsCapability where
  list_changed : Bool
deriving DecidableEq

/-- src/types.rs ResourcesCapability. -/
structure ResourcesCapability where
  subscribe : Bool
  list_changed : Bool
deriving DecidableEq

/-- src/types.rs PromptsCapability. -/
structure PromptsCapability where
  list_changed : Bool
deriving DecidableEq

/-- src/types.rs SamplingCapability (empty struct). -/
structure SamplingCapability where
deriving DecidableEq

/-- src/types.rs ServerCapabilities: four optional sub-capabilities, each
defaulting to None. -/
structure ServerCapabilities where
  tools : Option ToolsCapability
  resources : Option ResourcesCapability
  prompts : Option PromptsCapability
  sampling : Option SamplingCapability
deriving DecidableEq

/-- ServerCapabilities::default(). -/
def capsDefault : ServerCapabilities :=
  { tools := none, resources := none, prompts := none, sampling := none }

/-- src/types.rs ServerInfo (serde rename_all = camelCase): name required,
version and protocolVersion default to the empty string, capabilities
defaults to ServerCapabilities::default(). -/
structure ServerInfo where
  name : String
  version : String
  protocol_version : String
  capabilities : ServerCapabilities
deriving DecidableEq

/-- Deserialization of an optional struct field: absent or JSON null gives
None, anything else must parse with the field's parser. -/
def parseOptField {α : Type} (j : Json) (k : String) (p : Json → Option α) : Option (Option α) :=
  match j.get k with
  | none => some none
  | some Json.null => some none
  | some v => (p v).map some

/-- Deserialization of a defaulted bool field: absent gives the default
false, present must be a JSON boolean. -/
def parseBoolFieldD (j : Json) (k : String) : Option Bool :=
  match j.get k with
  | none => some false
  | some (Json.bool b) => some b
  | some _ => none

/-- Deserialization of a defaulted string field: absent gives the empty
string, present must be a JSON string. -/
def parseStrFieldD (j : Json) (k : String) : Option String :=
  match j.get k with
  | none => some ""
  | some v => v.asStr

/-- serde derive for ToolsCapability. -/
def parseToolsCapability (j : Json) : Option ToolsCapability :=
  match j with
  | .obj _ => (parseBoolFieldD j "list_changed").map (fun b => { list_changed := b })
  | _ => none

/-- serde derive for ResourcesCapability. -/
def parseResourcesCapability (j : Json) : Option ResourcesCapability :=
  match j with
  | .obj _ => do
      let s ← parseBoolFieldD j "subscribe"
      let lc ← parseBoolFieldD j "list_changed"
      some { subscribe := s, list_changed := lc }
  | _ => none

/-- serde derive for PromptsCapability. -/
def parsePromptsCapability (j : Json) : Option PromptsCapability :=
  match j with
  | .obj _ => (parseBoolFieldD j "list_changed").map (fun b => { list_changed := b })
  | _ => none

/-- serde derive for SamplingCapability (accepts any object). -/
def parseSamplingCapability (j : Json) : Option SamplingCapability :=
  match j with
  | .obj _ => some {}
  | _ => none

/-- serde derive for ServerCapabilities. -/
def parseServerCapabilities (j : Json) : Option ServerCapabilities :=
  match j with
  | .obj _ => do
      let t ← parseOptField j "tools" parseToolsCapability
      let r ← parseOptField j "resources" parseResourcesCapability
      let p ← parseOptField j "prompts" parsePromptsCapability
      let s ← parseOptField j "sampling" parseSamplingCapability
      some { tools := t, resources := r, prompts := p, sampling := s }
  | _ => none

/-- serde derive for ServerInfo (camelCase field keys). -/
def parseServerInfo (j : Json) : Option ServerInfo :=
  match j with
  | .obj _ => do
      let nameV ← j.get "name"
      let name ← nameV.asStr
      let version ← parseStrFieldD j "version"
      let pv ← parseStrFieldD j "protocolVersion"
      let caps ←
        match j.get "capabilities" with
        | none => some capsDefault
        | some v => parseServerCapabilities v
      some { name := name, version := version, protocol_version := pv, capabilities := caps }
  | _ => none

/-- serde derive for ToolSchema: name and inputSchema required, description
defaulted. -/
def parseToolSchema (j : Json) : Option ToolSchema :=
  match j with
  | .obj _ => do
      let nameV ← j.get "name"
      let name ← nameV.asStr
      let descr ← parseStrFieldD j "description"
      let schema ← j.get "inputSchema"
      some { name := name, description := descr, input_schema := schema }
  | _ => none

/-- One outcome of a request exchange on the stdio transport, from the
connection's point of view: either some stage failed (a write, flush or
read error, or an unparseable reply line, already mapped to the McpError
the code produces at that stage), or a reply frame was read and parsed. -/
inductive ReadOutcome where
  | failure (e : McpError)
  | frame (j : Json)

/-- src/transport.rs StdioTransport.  The child process's behaviour is
abstracted as oracle streams: `requestOutcomes` are the successive results
of full request exchanges, `notifyOutcomes` the successive results of
notification writes (none = written and flushed, some e = the write or
flush error). -/
structure Transport where
  requestOutcomes : List ReadOutcome
  notifyOutcomes : List (Option McpError)

/-- StdioTransport::send_request (src/transport.rs lines 89-116): write the
request line, read exactly one reply line and parse it.  The written
request bytes go to the child whose responses are the oracle stream, so the
outcome is the head of the stream; an exhausted stream models end of
stream, where read_line returns an empty line and JSON parsing fails with a
ProtocolError. -/
def Transport.send_request (t : Transport) (_req : Json) : Except McpError Json × Transport :=
  match t.requestOutcomes with
  | [] => (Except.error (McpError.ProtocolError "Invalid JSON response: EOF while parsing a value"), t)
  | ReadOutcome.failure e :: rest => (Except.error e, { t with requestOutcomes := rest })
  | ReadOutcome.frame j :: rest => (Except.ok j, { t with requestOutcomes := rest })

/-- StdioTransport::send_notification (src/transport.rs lines 118-131):
write one line and flush; success once written. -/
def Transport.send_notification (t : Transport) (_note : Json) : Except McpError Unit × Transport :=
  match t.notifyOutcomes with
  | [] => (Except.ok (), t)
  | none :: rest => (Except.ok (), { t with notifyOutcomes := rest })
  | some e :: rest => (Except.error e, { t with notifyOutcomes := rest })

/-- StdioTransport::close (src/transport.rs lines 133-137): kill the child,
swallow any kill failure, always return Ok. -/
def Transport.close (_t : Transport) : Except McpError Unit :=
  Except.ok ()

/-- src/connection.rs McpConnection state: transport slot, connected flag,
recorded server info, request-id counter. -/
structure McpConnection where
  transport : Option Transport
  connected : Bool
  server_info : Option ServerInfo
  request_id : Nat

/-- McpConnection::new (src/connection.rs lines 28-36): always succeeds
with an empty state (the Result it returns in the source is always Ok). -/
def McpConnection.new : McpConnection :=
  { transport := none, connected := false, server_info := none, request_id := 0 }

/-- Reply handling of McpConnection::send_request (src/connection.rs lines
173-181): a reply with an `error` object becomes an RpcError with its code
(as_i64, default -1) and message (as_str, default "Unknown error");
otherwise the `result` field is returned.  No other field of the reply —
in particular not its `id` — is inspected. -/
def processReply (response : Json) : Except McpError Json :=
  match response.get "error" with
  | some err =>
      Except.error (McpError.RpcError
        ((Json.asI64 (err.index "code")).getD (-1))
        ((Json.asStr (err.index "message")).getD "Unknown error"))
  | none => Except.ok (response.index "result")

/-- McpConnection::send_request (src/connection.rs lines 153-182): allocate
the next request id (the counter increments even on the NotConnected
path, as fetch_add precedes the transport check), fail with NotConnected
when no transport is present, otherwise exchange the JSON-RPC envelope and
hand the reply to processReply. -/
def McpConnection.sendRequest (method : String) (params : Json) (c : McpConnection) :
    Except McpError Json × McpConnection :=
  let id := c.request_id
  let c1 := { c with request_id := c.request_id + 1 }
  match c1.transport with
  | none => (Except.error McpError.NotConnected, c1)
  | some t =>
      let req := Json.obj [("jsonrpc", Json.str "2.0"), ("id", Json.num (Int.ofNat id)),
        ("method", Json.str method), ("params", params)]
      let p := Transport.send_request t req
      let c2 := { c1 with transport := some p.2 }
      match p.1 with
      | Except.error e => (Except.error e, c2)
      | Except.ok response => (processReply response, c2)

/-- McpConnection::send_notification (src/connection.rs lines 185-201):
fail with NotConnected when no transport is present, otherwise write the
notification envelope. -/
def McpConnection.sendNotification (method : String) (params : Json) (c : McpConnection) :
    Except McpError Unit × McpConnection :=
  match c.transport with
  | none => (Except.error McpError.NotConnected, c)
  | some t =>
      let note := Json.obj [("jsonrpc", Json.str "2.0"),
        ("method", Json.str method), ("params", params)]
      let p := Transport.send_notification t note
      (p.1, { c with transport := some p.2 })

/-- The crate version baked in by env!("CARGO_PKG_VERSION"); opaque to
every claim. -/
def cargoPkgVersion : String := "0.1.0"

/-- The params of the initialize request (src/connection.rs lines 47-57). -/
def initParams : Json :=
  Json.obj [
    ("protocolVersion", Json.str "2024-11-05"),
    ("capabilities", Json.obj [("tools", Json.obj []), ("sampling", Json.obj [])]),
    ("clientInfo", Json.obj [("name", Json.str "lair"), ("version", Json.str cargoPkgVersion)])]

/-- McpConnection::initialize (src/connection.rs lines 39-76), renamed to
`init` here: create the transport (outcome of crate::transport::create_transport
passed as the oracle `newT` — a Socket or Http config yields its
not-implemented TransportError, a failed spawn its TransportError), store
it, send the initialize request, parse the ServerInfo, record it and set
connected, then send the initialized notification; a failure of that
notification propagates (the `?` on line 67) after the flag and info are
already set. -/
def McpConnection.init (c : McpConnection) (newT : Except McpError Transport) :
    Except McpError ServerInfo × McpConnection :=
  match newT with
  | Except.error e => (Except.error e, c)
  | Except.ok t =>
      let p1 := McpConnection.sendRequest "initialize" initParams { c with transport := some t }
      match p1.1 with
      | Except.error e => (Except.error e, p1.2)
      | Except.ok resp =>
          match parseServerInfo resp with
          | none => (Except.error (McpError.ProtocolError "Invalid server info"), p1.2)
          | some si =>
              let c3 := { p1.2 with server_info := some si, connected := true }
              let p2 := McpConnection.sendNotification "notifications/initialized" (Json.obj []) c3
              match p2.1 with
              | Except.error e => (Except.error e, p2.2)
              | Except.ok _ => (Except.ok si, p2.2)

/-- Catalog extraction of McpConnection::list_tools (src/connection.rs
lines 82-89): take the `tools` field of the result, if it is an array keep
the entries that parse as ToolSchema, otherwise the empty catalog. -/
def extractTools (response : Json) : List ToolSchema :=
  match Json.asArray (response.index "tools") with
  | some arr => arr.filterMap parseToolSchema
  | none => []

/-- McpConnection::list_tools (src/connection.rs lines 79-93). -/
def McpConnection.list_tools (c : McpConnection) :
    Except McpError (List ToolSchema) × McpConnection :=
  let p := McpConnection.sendRequest "tools/list" (Json.obj []) c
  match p.1 with
  | Except.error e => (Except.error e, p.2)
  | Except.ok response => (Except.ok (extractTools response), p.2)

/-- McpConnection::call_tool (src/connection.rs lines 96-114): issue
tools/call; an `error` field embedded in the result body becomes a
ToolError carrying its serialization, otherwise the `content` field is
returned as-is. -/
def McpConnection.call_tool (name : String) (args : Json) (c : McpConnection) :
    Except McpError Json × McpConnection :=
  let p := McpConnection.sendRequest "tools/call"
    (Json.obj [("name", Json.str name), ("arguments", args)]) c
  match p.1 with
  | Except.error e => (Except.error e, p.2)
  | Except.ok response =>
      match response.get "error" with
      | some err => (Except.error (McpError.ToolError (Json.render err)), p.2)
      | none => (Except.ok (response.index "content"), p.2)

/-- McpConnection::notify_sandbox_state (src/connection.rs lines 117-122). -/
def McpConnection.notify_sandbox_state (enabled : Bool) (policy : String) (c : McpConnection) :
    Except McpError Unit × McpConnection :=
  McpConnection.sendNotification "notifications/sandbox_state"
    (Json.obj [("enabled", Json.bool enabled), ("policy", Json.str policy)]) c

/-- McpConnection::ping (src/connection.rs lines 125-128). -/
def McpConnection.ping (c : McpConnection) : Except McpError Unit × McpConnection :=
  let p := McpConnection.sendRequest "ping" (Json.obj []) c
  match p.1 with
  | Except.error e => (Except.error e, p.2)
  | Except.ok _ => (Except.ok (), p.2)

/-- McpConnection::shutdown (src/connection.rs lines 141-150): clear the
connected flag, take the transport out of its slot (leaving none), close
it; a close failure would propagate, but the stdio close never fails. -/
def McpConnection.shutdown (c : McpConnection) : Except McpError Unit × McpConnection :=
  let c1 := { c with connected := false }
  match c1.transport with
  | none => (Except.ok (), c1)
  | some t =>
      let c2 := { c1 with transport := none }
      match Transport.close t with
      | Except.error e => (Except.error e, c2)
      | Except.ok _ => (Except.ok (), c2)

/-- src/types.rs ServerHealth. -/
inductive ServerHealth where
  | Healthy
  | Unhealthy
  | Disconnected
  | Unknown
deriving DecidableEq

/-- src/manager.rs McpManager: three independently locked maps, modelled as
three association lists with unique keys. -/
structure McpManager where
  connections : List (String × McpConnection)
  tool_cache : List (String × List ToolSchema)
  health : List (String × ServerHealth)

/-- McpManager::new (src/manager.rs lines 25-31). -/
def McpManager.new : McpManager :=
  { connections := [], tool_cache := [], health := [] }

/-- McpManager::connect (src/manager.rs lines 34-55): construct the
Connection (never fails), initialize it through the transport-creation
outcome `newT` (standing for crate::transport::create_transport on the
config), discover its tools, and only then insert into all three maps under
the config's server id; any failure returns before the inserts. -/
def McpManager.connect (server_id : String) (newT : Except McpError Transport)
    (st : McpManager) : Except McpError Unit × McpManager :=
  let p1 := McpConnection.init McpConnection.new newT
  match p1.1 with
  | Except.error e => (Except.error e, st)
  | Except.ok _ =>
      let p2 := McpConnection.list_tools p1.2
      match p2.1 with
      | Except.error e => (Except.error e, st)
      | Except.ok tools =>
          (Except.ok (), { connections := ainsert server_id p2.2 st.connections,
                           tool_cache := ainsert server_id tools st.tool_cache,
                           health := ainsert server_id ServerHealth.Healthy st.health })

/-- McpManager::disconnect (src/manager.rs lines 58-70): remove the
Connection from the connection map first, shut it down (a shutdown error
would propagate before the other removals — the `?` on line 62), then
remove the cache and health entries; unknown ids skip the shutdown. -/
def McpManager.disconnect (server_id : String) (st : McpManager) :
    Except McpError Unit × McpManager :=
  let connOpt := alookup server_id st.connections
  let st1 := { st with connections := aerase server_id st.connections }
  match connOpt with
  | some conn =>
      match (McpConnection.shutdown conn).1 with
      | Except.error e => (Except.error e, st1)
      | Except.ok _ =>
          (Except.ok (), { st1 with tool_cache := aerase server_id st1.tool_cache,
                                    health := aerase server_id st1.health })
  | none =>
      (Except.ok (), { st1 with tool_cache := aerase server_id st1.tool_cache,
                                health := aerase server_id st1.health })

/-- McpManager::find_tool iteration (src/manager.rs lines 97-105): first
server whose cached list contains the name wins; the association-list order
stands for the HashMap's unspecified iteration order. -/
def findToolGo (name : String) : List (String × List ToolSchema) → Option (String × ToolSchema)
  | [] => none
  | (server_id, tools) :: rest =>
      match tools.find? (fun t => decide (t.name = name)) with
      | some tool => some (server_id, tool)
      | none => findToolGo name rest

/-- McpManager::find_tool (src/manager.rs lines 97-105). -/
def McpManager.find_tool (name : String) (st : McpManager) : Option (String × ToolSchema) :=
  findToolGo name st.tool_cache

/-- McpManager::call_tool (src/manager.rs lines 108-118): resolve the
Connection by server id, fail with ServerNotFound if absent, else delegate;
the connection's advanced transport state is written back (the map holds
the same Arc). -/
def McpManager.call_tool (server_id tool_name : String) (args : Json) (st : McpManager) :
    Except McpError Json × McpManager :=
  match alookup server_id st.connections with
  | none => (Except.error (McpError.ServerNotFound server_id), st)
  | some conn =>
      let p := McpConnection.call_tool tool_name args conn
      (p.1, { st with connections := ainsert server_id p.2 st.connections })

/-- McpManager::refresh_tools (src/manager.rs lines 126-135): re-run tool
discovery on the existing Connection and replace the cache entry wholesale;
a discovery failure propagates before the cache write. -/
def McpManager.refresh_tools (server_id : String) (st : McpManager) :
    Except McpError (List ToolSchema) × McpManager :=
  match alookup server_id st.connections with
  | none => (Except.error (McpError.ServerNotFound server_id), st)
  | some conn =>
      let p := McpConnection.list_tools conn
      let st1 := { st with connections := ainsert server_id p.2 st.connections }
      match p.1 with
      | Except.error e => (Except.error e, st1)
      | Except.ok tools =>
          (Except.ok tools, { st1 with tool_cache := ainsert server_id tools st1.tool_cache })

/-- McpManager::notify_sandbox_state (src/manager.rs lines 138-144): fan
out to every connection; per-server failures are logged and swallowed, so
no error channel exists. -/
def McpManager.notify_sandbox_state (enabled : Bool) (policy : String) (st : McpManager) :
    McpManager :=
  let conns := st.connections.map
    (fun q => (q.1, (McpConnection.notify_sandbox_state enabled policy q.2).2))
  { st with connections := conns }

/-- The per-server probe of McpManager::health_check (src/manager.rs lines
149-156): connected servers are pinged, success marks Healthy and failure
Unhealthy; disconnected servers are marked Disconnected without a ping. -/
def probe (c : McpConnection) : ServerHealth × McpConnection :=
  if c.connected then
    match McpConnection.ping c with
    | (Except.ok _, c2) => (ServerHealth.Healthy, c2)
    | (Except.error _, c2) => (ServerHealth.Unhealthy, c2)
  else (ServerHealth.Disconnected, c)

/-- The sweep of McpManager::health_check over the connection map entries:
each server's status is written into the health map as it is probed. -/
def health_sweep : List (String × McpConnection) → List (String × ServerHealth) →
    List (String × McpConnection) × List (String × ServerHealth)
  | [], h => ([], h)
  | (id, conn) :: rest, h =>
      let pr := probe conn
      let r := health_sweep rest (ainsert id pr.1 h)
      ((id, pr.2) :: r.1, r.2)

/-- McpManager::health_check (src/manager.rs lines 147-160): probe every
tracked server and record its status; the function has no error channel
(it returns unit in the source). -/
def McpManager.health_check (st : McpManager) : McpManager :=
  let r := health_sweep st.connections st.health
  { st with connections := r.1, health := r.2 }

/-- Connection states reachable by calling the public operations of
McpConnection, starting from McpConnection::new. -/
inductive ConnReach : McpConnection → Prop where
  | new : ConnReach McpConnection.new
  | init {c : McpConnection} (nt : Except McpError Transport) (h : ConnReach c) :
      ConnReach (McpConnection.init c nt).2
  | list_tools {c : McpConnection} (h : ConnReach c) :
      ConnReach (McpConnection.list_tools c).2
  | call_tool {c : McpConnection} (n : String) (a : Json) (h : ConnReach c) :
      ConnReach (McpConnection.call_tool n a c).2
  | ping {c : McpConnection} (h : ConnReach c) :
      ConnReach (McpConnection.ping c).2
  | notify {c : McpConnection} (e : Bool) (p : String) (h : ConnReach c) :
      ConnReach (McpConnection.notify_sandbox_state e p c).2
  | shutdown {c : McpConnection} (h : ConnReach c) :
      ConnReach (McpConnection.shutdown c).2

/-- Registry states reachable by the McpManager operations, starting from
McpManager::new.  Operations that only read the maps (get_connection,
server_ids, list_tools, list_server_tools, find_tool, server_health) do
not change the state. -/
inductive MgrReach : McpManager → Prop where
  | new : MgrReach McpManager.new
  | connect {st : McpManager} (id : String) (t : Except McpError Transport) (h : MgrReach st) :
      MgrReach (McpManager.connect id t st).2
  | disconnect {st : McpManager} (id : String) (h : MgrReach st) :
      MgrReach (McpManager.disconnect id st).2
  | refresh {st : McpManager} (id : String) (h : MgrReach st) :
      MgrReach (McpManager.refresh_tools id st).2
  | health {st : McpManager} (h : MgrReach st) :
      MgrReach (McpManager.health_check st)
  | call {st : McpManager} (id n : String) (a : Json) (h : MgrReach st) :
      MgrReach (McpManager.call_tool id n a st).2
  | notify {st : McpManager} (e : Bool) (p : String) (h : MgrReach st) :
      MgrReach (McpManager.notify_sandbox_state e p st)

/-- Concrete ServerInfo of the spec scenario: a server named "echo" whose
reply carries only the name. -/
def siEcho : ServerInfo :=
  { name := "echo", version := "", protocol_version := "", capabilities := capsDefault }

/-- A well-formed initialize reply frame. -/
def initFrame : Json :=
  Json.obj [("jsonrpc", Json.str "2.0"), ("id", Json.num 0),
    ("result", Json.obj [("name", Json.str "echo")])]

/-- The ToolSchema of the "add" tool. -/
def toolAdd : ToolSchema :=
  { name := "add", description := "", input_schema := Json.obj [] }

/-- A tools/list reply frame advertising the "add" tool. -/
def toolsFrame : Json :=
  Json.obj [("jsonrpc", Json.str "2.0"), ("id", Json.num 1),
    ("result", Json.obj [("tools",
      Json.arr [Json.obj [("name", Json.str "add"), ("inputSchema", Json.obj [])]])])]

/-- A transport whose child answers the handshake and the tool discovery. -/
def tHappy : Transport :=
  { requestOutcomes := [ReadOutcome.frame initFrame, ReadOutcome.frame toolsFrame],
    notifyOutcomes := [none] }

/-- A transport whose child answers the handshake only. -/
def tInitOnly : Transport :=
  { requestOutcomes := [ReadOutcome.frame initFrame], notifyOutcomes := [none] }

/-- A transport whose child answers the handshake but whose stdin breaks
before the initialized notification is written. -/
def tNotifFail : Transport :=
  { requestOutcomes := [ReadOutcome.frame initFrame],
    notifyOutcomes := [some (McpError.TransportError "Write error: Broken pipe (os error 32)")] }

/-- The create_transport outcome for a Socket config (src/transport.rs
lines 33-36). -/
def badCreate : Except McpError Transport :=
  Except.error (McpError.TransportError "Socket transport not implemented")

/-- A transport whose child process has exited: the next read fails. -/
def tDead : Transport :=
  { requestOutcomes := [ReadOutcome.failure (McpError.TransportError "Read error: early eof")],
    notifyOutcomes := [] }

/-- A connection that completed its handshake but whose server has since
died. -/
def connDead : McpConnection :=
  { transport := some tDead, connected := true, server_info := some siEcho, request_id := 3 }

/-- A registry tracking one dead-but-connected server and one
never-connected entry. -/
def mgrTwo : McpManager :=
  { connections := [("a", connDead), ("b", McpConnection.new)], tool_cache := [], health := [] }

/-- The registry state after one successful connect of server "s". -/
def mgrHappy : McpManager :=
  (McpManager.connect "s" (Except.ok tHappy) McpManager.new).2

/-- A reply frame whose id (99) differs from any id the connection
allocated. -/
def mismatchFrame : Json :=
  Json.obj [("jsonrpc", Json.str "2.0"), ("id", Json.num 99), ("result", Json.str "pong")]

/-- A transport yielding only the mismatched-id frame. -/
def tMismatch : Transport :=
  { requestOutcomes := [ReadOutcome.frame mismatchFrame], notifyOutcomes := [] }

/-- A ready connection about to allocate request id 5. -/
def connFive : McpConnection :=
  { transport := some tMismatch, connected := true, server_info := some siEcho, request_id := 5 }

/-- The content value of the spec's tools/call scenario. -/
def contentVal : Json :=
  Json.arr [Json.obj [("type", Json.str "text"), ("text", Json.str "4")]]

/-- The tools/call reply frame of the spec scenario. -/
def callReplyFrame : Json :=
  Json.obj [("jsonrpc", Json.str "2.0"), ("id", Json.num 2),
    ("result", Json.obj [("content", contentVal)])]

/-- A transport yielding the tools/call reply. -/
def tCall : Transport :=
  { requestOutcomes := [ReadOutcome.frame callReplyFrame], notifyOutcomes := [] }

/-- A ready connection whose server answers the tools/call scenario. -/
def connCall : McpConnection :=
  { transport := some tCall, connected := true, server_info := some siEcho, request_id := 2 }

/-- A tools/list reply whose result has no tools field at all. -/
def noToolsFrame : Json :=
  Json.obj [("jsonrpc", Json.str "2.0"), ("id", Json.num 0), ("result", Json.obj [])]

/-- A transport yielding the tools-less reply. -/
def tNoTools : Transport :=
  { requestOutcomes := [ReadOutcome.frame noToolsFrame], notifyOutcomes := [] }

/-- A ready connection whose server advertises no tools field. -/
def connNoTools : McpConnection :=
  { transport := some tNoTools, connected := true, server_info := some siEcho, request_id := 0 }

lemma alookup_ainsert_self {α : Type} (k : String) (v : α) (l : List (String × α)) :
    alookup k (ainsert k v l) = some v := by
  simp [ainsert, alookup]

lemma alookup_aerase_self {α : Type} (k : String) (l : List (String × α)) :
    alookup k (aerase k l) = none := by
  induction l with
  | nil => simp [aerase, alookup]
  | cons p rest ih =>
      obtain ⟨k2, v⟩ := p
      by_cases h : k2 = k
      · simp [aerase, h, ih]
      · simp [aerase, alookup, h, ih]

lemma alookup_aerase_ne {α : Type} {k1 k2 : String} (h : k1 ≠ k2) (l : List (String × α)) :
    alookup k1 (aerase k2 l) = alookup k1 l := by
  induction l with
  | nil => simp [aerase]
  | cons p rest ih =>
      obtain ⟨k3, v⟩ := p
      by_cases h3 : k3 = k2
      · subst h3
        simp [aerase, alookup, Ne.symm h, ih]
      · by_cases h1 : k3 = k1
        · subst h1
          simp [aerase, alookup, h3]
        · simp [aerase, alookup, h3, h1, ih]

lemma alookup_ainsert_ne {α : Type} {k1 k2 : String} (h : k1 ≠ k2) (v : α) (l : List (String × α)) :
    alookup k1 (ainsert k2 v l) = alookup k1 l := by
  have h2 : k2 ≠ k1 := fun hc => h hc.symm
  simp [ainsert, alookup, h2, alookup_aerase_ne h l]

lemma isSome_alookup_ainsert {α : Type} {k1 k2 : String} {l : List (String × α)} (v : α)
    (h : (alookup k1 l).isSome = true) :
    (alookup k1 (ainsert k2 v l)).isSome = true := by
  by_cases hk : k1 = k2
  · rw [hk, alookup_ainsert_self]
    rfl
  · rw [alookup_ainsert_ne hk]
    exact h

lemma alookup_isSome_iff_mem {α : Type} (k : String) (l : List (String × α)) :
    (alookup k l).isSome = true ↔ k ∈ l.map Prod.fst := by
  induction l with
  | nil => simp [alookup]
  | cons p rest ih =>
      obtain ⟨k2, v⟩ := p
      by_cases h : k2 = k
      · simp [alookup, h]
      · have h2 : k ≠ k2 := fun hc => h hc.symm
        simp [alookup, h, ih, h2]

lemma shutdown_ok (c : McpConnection) : (McpConnection.shutdown c).1 = Except.ok () := by
  unfold McpConnection.shutdown
  cases c.transport <;> simp [Transport.close]

lemma shutdown_transport (c : McpConnection) : ((McpConnection.shutdown c).2).transport = none := by
  unfold McpConnection.shutdown
  cases h : c.transport <;> simp [Transport.close, h]

lemma shutdown_connected (c : McpConnection) : ((McpConnection.shutdown c).2).connected = false := by
  unfold McpConnection.shutdown
  cases c.transport <;> simp [Transport.close]

lemma shutdown_server_info (c : McpConnection) :
    ((McpConnection.shutdown c).2).server_info = c.server_info := by
  unfold McpConnection.shutdown
  cases c.transport <;> simp [Transport.close]

lemma sendRequest_not_connected (m : String) (p : Json) {c : McpConnection}
    (h : c.transport = none) :
    (McpConnection.sendRequest m p c).1 = Except.error McpError.NotConnected := by
  simp [McpConnection.sendRequest, h]

lemma sendRequest_connected_eq (m : String) (p : Json) (c : McpConnection) :
    ((McpConnection.sendRequest m p c).2).connected = c.connected := by
  unfold McpConnection.sendRequest
  cases h : c.transport with
  | none => simp [h]
  | some t =>
      simp only [h]
      split <;> simp

lemma sendRequest_server_info_eq (m : String) (p : Json) (c : McpConnection) :
    ((McpConnection.sendRequest m p c).2).server_info = c.server_info := by
  unfold McpConnection.sendRequest
  cases h : c.transport with
  | none => simp [h]
  | some t =>
      simp only [h]
      split <;> simp

lemma sendRequest_transport_isSome (m : String) (p : Json) (c : McpConnection) :
    (((McpConnection.sendRequest m p c).2).transport).isSome = (c.transport).isSome := by
  unfold McpConnection.sendRequest
  cases h : c.transport with
  | none => simp [h]
  | some t =>
      simp only [h]
      split <;> simp

lemma sendRequest_frame (m : String) (p : Json) {c : McpConnection} {t : Transport}
    {r : Json} {rest : List ReadOutcome}
    (h1 : c.transport = some t) (h2 : t.requestOutcomes = ReadOutcome.frame r :: rest) :
    (McpConnection.sendRequest m p c).1 = processReply r := by
  simp [McpConnection.sendRequest, h1, Transport.send_request, h2]

lemma sendNotification_not_connected (m : String) (p : Json) {c : McpConnection}
    (h : c.transport = none) :
    (McpConnection.sendNotification m p c).1 = Except.error McpError.NotConnected := by
  simp [McpConnection.sendNotification, h]

lemma sendNotification_connected_eq (m : String) (p : Json) (c : McpConnection) :
    ((McpConnection.sendNotification m p c).2).connected = c.connected := by
  unfold McpConnection.sendNotification
  cases h : c.transport <;> simp [h]

lemma sendNotification_server_info_eq (m : String) (p : Json) (c : McpConnection) :
    ((McpConnection.sendNotification m p c).2).server_info = c.server_info := by
  unfold McpConnection.sendNotification
  cases h : c.transport <;> simp [h]

lemma sendNotification_transport_isSome (m : String) (p : Json) (c : McpConnection) :
    (((McpConnection.sendNotification m p c).2).transport).isSome = (c.transport).isSome := by
  unfold McpConnection.sendNotification
  cases h : c.transport <;> simp [h]

lemma list_tools_not_connected {c : McpConnection} (h : c.transport = none) :
    (McpConnection.list_tools c).1 = Except.error McpError.NotConnected := by
  simp [McpConnection.list_tools, sendRequest_not_connected _ _ h]

lemma call_tool_not_connected (n : String) (a : Json) {c : McpConnection}
    (h : c.transport = none) :
    (McpConnection.call_tool n a c).1 = Except.error McpError.NotConnected := by
  simp [McpConnection.call_tool, sendRequest_not_connected _ _ h]

lemma ping_not_connected {c : McpConnection} (h : c.transport = none) :
    (McpConnection.ping c).1 = Except.error McpError.NotConnected := by
  simp [McpConnection.ping, sendRequest_not_connected _ _ h]

lemma notify_sandbox_state_not_connected (e : Bool) (p : String) {c : McpConnection}
    (h : c.transport = none) :
    (McpConnection.notify_sandbox_state e p c).1 = Except.error McpError.NotConnected := by
  simp [McpConnection.notify_sandbox_state, sendNotification_not_connected _ _ h]

lemma list_tools_state (c : McpConnection) :
    ((McpConnection.list_tools c).2).connected = c.connected ∧
    ((McpConnection.list_tools c).2).server_info = c.server_info ∧
    (((McpConnection.list_tools c).2).transport).isSome = (c.transport).isSome := by
  cases h : (McpConnection.sendRequest "tools/list" (Json.obj []) c).1 <;>
    simp [McpConnection.list_tools, h, sendRequest_connected_eq, sendRequest_server_info_eq,
      sendRequest_transport_isSome]

lemma call_tool_state (n : String) (a : Json) (c : McpConnection) :
    ((McpConnection.call_tool n a c).2).connected = c.connected ∧
    ((McpConnection.call_tool n a c).2).server_info = c.server_info ∧
    (((McpConnection.call_tool n a c).2).transport).isSome = (c.transport).isSome := by
  cases h : (McpConnection.sendRequest "tools/call"
      (Json.obj [("name", Json.str n), ("arguments", a)]) c).1 with
  | error e =>
      simp [McpConnection.call_tool, h, sendRequest_connected_eq, sendRequest_server_info_eq,
        sendRequest_transport_isSome]
  | ok r =>
      cases hr : r.get "error" <;>
        simp [McpConnection.call_tool, h, hr, sendRequest_connected_eq,
          sendRequest_server_info_eq, sendRequest_transport_isSome]

lemma ping_state (c : McpConnection) :
    ((McpConnection.ping c).2).connected = c.connected ∧
    ((McpConnection.ping c).2).server_info = c.server_info ∧
    (((McpConnection.ping c).2).transport).isSome = (c.transport).isSome := by
  cases h : (McpConnection.sendRequest "ping" (Json.obj []) c).1 <;>
    simp [McpConnection.ping, h, sendRequest_connected_eq, sendRequest_server_info_eq,
      sendRequest_transport_isSome]

lemma notify_sandbox_state_state (e : Bool) (p : String) (c : McpConnection) :
    ((McpConnection.notify_sandbox_state e p c).2).connected = c.connected ∧
    ((McpConnection.notify_sandbox_state e p c).2).server_info = c.server_info ∧
    (((McpConnection.notify_sandbox_state e p c).2).transport).isSome = (c.transport).isSome := by
  unfold McpConnection.notify_sandbox_state
  simp [sendNotification_connected_eq, sendNotification_server_info_eq,
    sendNotification_transport_isSome]

/-- After shutdown_ok, both branches of disconnect produce the same maps:
disconnect always succeeds and erases the id from all three. -/
lemma disconnect_state (i : String) (st : McpManager) :
    (McpManager.disconnect i st).1 = Except.ok () ∧
    (McpManager.disconnect i st).2 =
      { connections := aerase i st.connections,
        tool_cache := aerase i st.tool_cache,
        health := aerase i st.health } := by
  unfold McpManager.disconnect
  cases h : alookup i st.connections <;> simp [shutdown_ok]

lemma map_fst_map_pair {β : Type} (f : String × β → β) (l : List (String × β)) :
    (l.map (fun q => (q.1, f q))).map Prod.fst = l.map Prod.fst := by
  induction l with
  | nil => rfl
  | cons p rest ih => simp [ih]

lemma health_sweep_keys (l : List (String × McpConnection)) (h : List (String × ServerHealth)) :
    ((health_sweep l h).1).map Prod.fst = l.map Prod.fst := by
  induction l generalizing h with
  | nil => simp [health_sweep]
  | cons p rest ih =>
      obtain ⟨i, c⟩ := p
      simp [health_sweep, ih]

lemma health_sweep_health_other (l : List (String × McpConnection))
    (h : List (String × ServerHealth)) (id : String) (hnm : id ∉ l.map Prod.fst) :
    alookup id (health_sweep l h).2 = alookup id h := by
  induction l generalizing h with
  | nil => simp [health_sweep]
  | cons p rest ih =>
      obtain ⟨i, c⟩ := p
      have h1 : id ≠ i := by
        intro hc
        exact hnm (by simp [hc])
      have h2 : id ∉ rest.map Prod.fst := by
        intro hc
        exact hnm (by simp [hc])
      rw [show (health_sweep ((i, c) :: rest) h).2
            = (health_sweep rest (ainsert i (probe c).1 h)).2 from rfl]
      rw [ih _ h2]
      exact alookup_ainsert_ne h1 _ _

lemma health_sweep_lookup (l : List (String × McpConnection))
    (h : List (String × ServerHealth)) (id : String) (conn : McpConnection)
    (hnd : (l.map Prod.fst).Nodup) (hl : alookup id l = some conn) :
    alookup id (health_sweep l h).2 = some (probe conn).1 := by
  induction l generalizing h with
  | nil => simp [alookup] at hl
  | cons p rest ih =>
      obtain ⟨i, c⟩ := p
      have hndr : (rest.map Prod.fst).Nodup := (List.nodup_cons.mp (by simpa using hnd)).2
      have hni : i ∉ rest.map Prod.fst := (List.nodup_cons.mp (by simpa using hnd)).1
      rw [show (health_sweep ((i, c) :: rest) h).2
            = (health_sweep rest (ainsert i (probe c).1 h)).2 from rfl]
      by_cases hk : i = id
      · subst hk
        have hc : c = conn := by simpa [alookup] using hl
        subst hc
        rw [health_sweep_health_other rest _ i hni]
        exact alookup_ainsert_self i _ _
      · have hl2 : alookup id rest = some conn := by simpa [alookup, hk] using hl
        exact ih _ hndr hl2

lemma findToolGo_isSome (l : List (String × List ToolSchema)) (n sid : String)
    (tool : ToolSchema) (h : findToolGo n l = some (sid, tool)) :
    (alookup sid l).isSome = true := by
  induction l with
  | nil => simp [findToolGo] at h
  | cons p rest ih =>
      obtain ⟨i, tools⟩ := p
      cases hf : tools.find? (fun t => decide (t.name = n)) with
      | some tl =>
          simp [findToolGo, hf] at h
          obtain ⟨h1, h2⟩ := h
          subst h1
          simp [alookup]
      | none =>
          simp [findToolGo, hf] at h
          by_cases hk : i = sid
          · subst hk
            simp [alookup]
          · simp [alookup, hk]
            exact ih h

/-- A connection whose connected flag is set has a transport in its slot
and a recorded ServerInfo, at every reachable connection state. -/
lemma conn_inv {c : McpConnection} (h : ConnReach c) :
    c.connected = true → ((c.transport).isSome = true ∧ ((c.server_info).isSome = true)) := by
  induction h with
  | new =>
      intro hc
      simp [McpConnection.new] at hc
  | init nt h ih =>
      rename_i c0
      cases nt with
      | error e =>
          simpa [McpConnection.init] using ih
      | ok t =>
          have e1 := sendRequest_connected_eq "initialize" initParams { c0 with transport := some t }
          have e2 := sendRequest_server_info_eq "initialize" initParams { c0 with transport := some t }
          have e3 := sendRequest_transport_isSome "initialize" initParams { c0 with transport := some t }
          cases h1 : (McpConnection.sendRequest "initialize" initParams { c0 with transport := some t }).1 with
          | error e =>
              intro hc
              simp only [McpConnection.init, h1] at hc ⊢
              rw [e1] at hc
              refine ⟨by rw [e3]; rfl, ?_⟩
              rw [e2]
              exact (ih hc).2
          | ok resp =>
              cases h2 : parseServerInfo resp with
              | none =>
                  intro hc
                  simp only [McpConnection.init, h1, h2] at hc ⊢
                  rw [e1] at hc
                  refine ⟨by rw [e3]; rfl, ?_⟩
                  rw [e2]
                  exact (ih hc).2
              | some si =>
                  intro hc
                  simp only [McpConnection.init, h1, h2] at hc ⊢
                  set c3 : McpConnection :=
                    { (McpConnection.sendRequest "initialize" initParams { c0 with transport := some t }).2 with
                      server_info := some si, connected := true } with hc3
                  have n1 := sendNotification_server_info_eq "notifications/initialized" (Json.obj []) c3
                  have n3 := sendNotification_transport_isSome "notifications/initialized" (Json.obj []) c3
                  cases h3 : (McpConnection.sendNotification "notifications/initialized" (Json.obj []) c3).1 with
                  | error e =>
                      simp only [h3] at hc ⊢
                      constructor
                      · rw [n3, hc3]
                        simpa using e3
                      · rw [n1]
                        rfl
                  | ok u =>
                      simp only [h3] at hc ⊢
                      constructor
                      · rw [n3, hc3]
                        simpa using e3
                      · rw [n1]
                        rfl
  | list_tools h ih =>
      rename_i c0
      intro hc
      obtain ⟨e1, e2, e3⟩ := list_tools_state c0
      rw [e1] at hc
      obtain ⟨a1, a2⟩ := ih hc
      exact ⟨by rw [e3]; exact a1, by rw [e2]; exact a2⟩
  | call_tool n a h ih =>
      rename_i c0
      intro hc
      obtain ⟨e1, e2, e3⟩ := call_tool_state n a c0
      rw [e1] at hc
      obtain ⟨a1, a2⟩ := ih hc
      exact ⟨by rw [e3]; exact a1, by rw [e2]; exact a2⟩
  | ping h ih =>
      rename_i c0
      intro hc
      obtain ⟨e1, e2, e3⟩ := ping_state c0
      rw [e1] at hc
      obtain ⟨a1, a2⟩ := ih hc
      exact ⟨by rw [e3]; exact a1, by rw [e2]; exact a2⟩
  | notify e p h ih =>
      rename_i c0
      intro hc
      obtain ⟨e1, e2, e3⟩ := notify_sandbox_state_state e p c0
      rw [e1] at hc
      obtain ⟨a1, a2⟩ := ih hc
      exact ⟨by rw [e3]; exact a1, by rw [e2]; exact a2⟩
  | shutdown h ih =>
      rename_i c0
      intro hc
      rw [shutdown_connected] at hc
      cases hc

/-- At every reachable Registry state, every key of the tool-cache map is
also a key of the connection map. -/
lemma mgr_inv {st : McpManager} (h : MgrReach st) :
    ∀ id, (alookup id st.tool_cache).isSome = true →
      (alookup id st.connections).isSome = true := by
  induction h with
  | new =>
      intro id hid
      simp [McpManager.new, alookup] at hid
  | connect i t h ih =>
      rename_i st0
      intro id hid
      cases h1 : (McpConnection.init McpConnection.new t).1 with
      | error e =>
          simp only [McpManager.connect, h1] at hid ⊢
          exact ih id hid
      | ok si =>
          cases h2 : (McpConnection.list_tools (McpConnection.init McpConnection.new t).2).1 with
          | error e =>
              simp only [McpManager.connect, h1, h2] at hid ⊢
              exact ih id hid
          | ok tools =>
              simp only [McpManager.connect, h1, h2] at hid ⊢
              by_cases hk : id = i
              · subst hk
                rw [alookup_ainsert_self]
                rfl
              · rw [alookup_ainsert_ne hk] at hid
                rw [alookup_ainsert_ne hk]
                exact ih id hid
  | disconnect i h ih =>
      rename_i st0
      intro id hid
      obtain ⟨hok, hst⟩ := disconnect_state i st0
      rw [hst] at hid ⊢
      simp only at hid ⊢
      by_cases hk : id = i
      · subst hk
        rw [alookup_aerase_self] at hid
        simp at hid
      · rw [alookup_aerase_ne hk] at hid ⊢
        exact ih id hid
  | refresh i h ih =>
      rename_i st0
      intro id hid
      cases hc : alookup i st0.connections with
      | none =>
          simp only [McpManager.refresh_tools, hc] at hid ⊢
          exact ih id hid
      | some conn =>
          cases h2 : (McpConnection.list_tools conn).1 with
          | error e =>
              simp only [McpManager.refresh_tools, hc, h2] at hid ⊢
              exact isSome_alookup_ainsert _ (ih id hid)
          | ok tools =>
              simp only [McpManager.refresh_tools, hc, h2] at hid ⊢
              by_cases hk : id = i
              · subst hk
                rw [alookup_ainsert_self]
                rfl
              · rw [alookup_ainsert_ne hk] at hid
                rw [alookup_ainsert_ne hk]
                exact ih id hid
  | health h ih =>
      rename_i st0
      intro id hid
      simp only [McpManager.health_check] at hid ⊢
      have hmem := ih id hid
      rw [alookup_isSome_iff_mem] at hmem ⊢
      rw [health_sweep_keys]
      exact hmem
  | call i n a h ih =>
      rename_i st0
      intro id hid
      cases hc : alookup i st0.connections with
      | none =>
          simp only [McpManager.call_tool, hc] at hid ⊢
          exact ih id hid
      | some conn =>
          simp only [McpManager.call_tool, hc] at hid ⊢
          exact isSome_alookup_ainsert _ (ih id hid)
  | notify e p h ih =>
      rename_i st0
      intro id hid
      simp only [McpManager.notify_sandbox_state] at hid ⊢
      have hmem := ih id hid
      rw [alookup_isSome_iff_mem] at hmem ⊢
      rw [map_fst_map_pair]
      exact hmem

/-- A successful initialize always leaves the connected flag set. -/
lemma init_ok_connected (c : McpConnection) (nt : Except McpError Transport)
    (si : ServerInfo) (c2 : McpConnection)
    (h : McpConnection.init c nt = (Except.ok si, c2)) : c2.connected = true := by
  cases nt with
  | error e => simp [McpConnection.init] at h
  | ok t =>
      cases h1 : (McpConnection.sendRequest "initialize" initParams
          { c with transport := some t }).1 with
      | error e => simp [McpConnection.init, h1] at h
      | ok resp =>
          cases h2 : parseServerInfo resp with
          | none => simp [McpConnection.init, h1, h2] at h
          | some si2 =>
              cases h3 : (McpConnection.sendNotification "notifications/initialized" (Json.obj [])
                  { (McpConnection.sendRequest "initialize" initParams
                      { c with transport := some t }).2 with
                    server_info := some si2, connected := true }).1 with
              | error e => simp [McpConnection.init, h1, h2, h3] at h
              | ok u =>
                  have key : McpConnection.init c (Except.ok t)
                      = (Except.ok si2, (McpConnection.sendNotification "notifications/initialized"
                          (Json.obj [])
                          { (McpConnection.sendRequest "initialize" initParams
                              { c with transport := some t }).2 with
                            server_info := some si2, connected := true }).2) := by
                    simp only [McpConnection.init, h1, h2, h3]
                  rw [key] at h
                  injection h with h4 h5
                  rw [← h5, sendNotification_connected_eq]

/-- Claim C1: for every Connection and every request operation, send_request
takes whatever frame the transport yields next as the reply: its outcome is
exactly processReply of that frame, the outcome does not depend on the
request id the connection allocated, and processReply ignores the reply's
id field (binding the id to any value, or leaving it out of the field list,
gives the same outcome), so a reply carrying a different or missing id is
processed normally rather than rejected. -/
theorem c1_reply_id_unchecked (c : McpConnection) (t : Transport) (m : String)
    (p r : Json) (rest : List ReadOutcome) (n : Nat) (v : Json)
    (fields : List (String × Json))
    (h1 : c.transport = some t)
    (h2 : t.requestOutcomes = ReadOutcome.frame r :: rest) :
    (McpConnection.sendRequest m p c).1 = processReply r ∧
    (McpConnection.sendRequest m p { c with request_id := n }).1
      = (McpConnection.sendRequest m p c).1 ∧
    processReply (Json.obj (("id", v) :: fields)) = processReply (Json.obj fields) := by
  have h1n : ({ c with request_id := n } : McpConnection).transport = some t := h1
  refine ⟨sendRequest_frame m p h1 h2, ?_, ?_⟩
  · rw [sendRequest_frame m p h1n h2, sendRequest_frame m p h1 h2]
  · have hid1 : ¬(("id" : String) = "error") := by decide
    have hid2 : ¬(("id" : String) = "result") := by decide
    simp [processReply, Json.get, Json.index, alookup, hid1, hid2]

/-- Claim C1 witness: a connection that allocated request id 5 receives a
reply whose id is 99; the reply is processed normally and its result is
returned. -/
theorem c1_witness :
    (McpConnection.sendRequest "ping" (Json.obj []) connFive).1 = Except.ok (Json.str "pong") := by
  have h := c1_reply_id_unchecked connFive tMismatch "ping" (Json.obj []) mismatchFrame
    [] 0 Json.null [] rfl rfl
  exact h.1.trans (by rfl)

/-- Claim C2 counterexample: after a successful connect of server "s", a
second connect for the same id that fails (a Socket config, whose transport
creation is not implemented) returns an error, yet all three maps still
contain an entry for "s" — the claim that after any failed connect none of
the maps contains the config's id is false; connect only guarantees it
inserts nothing. -/
theorem c2_counterexample :
    MgrReach mgrHappy ∧
    (McpManager.connect "s" badCreate mgrHappy).1
      = Except.error (McpError.TransportError "Socket transport not implemented") ∧
    (alookup "s" ((McpManager.connect "s" badCreate mgrHappy).2).connections).isSome = true ∧
    (alookup "s" ((McpManager.connect "s" badCreate mgrHappy).2).tool_cache).isSome = true ∧
    (alookup "s" ((McpManager.connect "s" badCreate mgrHappy).2).health).isSome = true := by
  refine ⟨?_, rfl, rfl, rfl, rfl⟩
  exact MgrReach.connect "s" (Except.ok tHappy) MgrReach.new

/-- Claim C2 amended: if connect fails at any stage — transport creation,
handshake, or tool discovery — the Registry state is left exactly as it
was: nothing is inserted into any of the three maps for the config's server
id (so an id absent before a failed connect is absent after it), and
entries appear in all three maps only when connect returns success. -/
theorem c2_connect_all_or_nothing (st : McpManager) (i : String)
    (t : Except McpError Transport) (e : McpError)
    (h : (McpManager.connect i t st).1 = Except.error e) :
    (McpManager.connect i t st).2 = st := by
  cases h1 : (McpConnection.init McpConnection.new t).1 with
  | error e1 => simp [McpManager.connect, h1]
  | ok si =>
      cases h2 : (McpConnection.list_tools (McpConnection.init McpConnection.new t).2).1 with
      | error e2 => simp [McpManager.connect, h1, h2]
      | ok tools => simp [McpManager.connect, h1, h2] at h

/-- Claim C2 amended witness: a failing connect on the empty registry
returns its error and leaves the registry empty. -/
theorem c2_witness :
    (McpManager.connect "s" badCreate McpManager.new).1
      = Except.error (McpError.TransportError "Socket transport not implemented") ∧
    (McpManager.connect "s" badCreate McpManager.new).2 = McpManager.new :=
  ⟨rfl, c2_connect_all_or_nothing McpManager.new "s" badCreate
    (McpError.TransportError "Socket transport not implemented") rfl⟩

/-- Claim C3: every operation other than initialize and shutdown —
list_tools, call_tool, ping, notify_sandbox_state — fails with the
NotConnected error both on a Connection in the Created state (fresh from
McpConnection::new, which has no transport) and on any Connection after
shutdown (whose transport slot has been emptied). -/
theorem c3_not_connected_outside_ready (c : McpConnection) (n : String) (a : Json)
    (en : Bool) (pol : String) :
    (McpConnection.list_tools McpConnection.new).1 = Except.error McpError.NotConnected ∧
    (McpConnection.call_tool n a McpConnection.new).1 = Except.error McpError.NotConnected ∧
    (McpConnection.ping McpConnection.new).1 = Except.error McpError.NotConnected ∧
    (McpConnection.notify_sandbox_state en pol McpConnection.new).1
      = Except.error McpError.NotConnected ∧
    (McpConnection.list_tools (McpConnection.shutdown c).2).1
      = Except.error McpError.NotConnected ∧
    (McpConnection.call_tool n a (McpConnection.shutdown c).2).1
      = Except.error McpError.NotConnected ∧
    (McpConnection.ping (McpConnection.shutdown c).2).1
      = Except.error McpError.NotConnected ∧
    (McpConnection.notify_sandbox_state en pol (McpConnection.shutdown c).2).1
      = Except.error McpError.NotConnected := by
  have hn : (McpConnection.new).transport = none := rfl
  have hs := shutdown_transport c
  exact ⟨list_tools_not_connected hn, call_tool_not_connected n a hn,
    ping_not_connected hn, notify_sandbox_state_not_connected en pol hn,
    list_tools_not_connected hs, call_tool_not_connected n a hs,
    ping_not_connected hs, notify_sandbox_state_not_connected en pol hs⟩

/-- Claim C4: disconnect always returns success (the only transport's close
never fails, so the shutdown it runs never fails) and afterwards none of
the three maps contains the id; in particular a connect — successful or not
— followed immediately by disconnect leaves all three maps free of that
server id, and a disconnect for an unknown id is a no-op success. -/
theorem c4_disconnect_clears (st : McpManager) (i : String)
    (t : Except McpError Transport) :
    (McpManager.disconnect i st).1 = Except.ok () ∧
    alookup i ((McpManager.disconnect i st).2).connections = none ∧
    alookup i ((McpManager.disconnect i st).2).tool_cache = none ∧
    alookup i ((McpManager.disconnect i st).2).health = none ∧
    (McpManager.disconnect i (McpManager.connect i t st).2).1 = Except.ok () ∧
    alookup i ((McpManager.disconnect i (McpManager.connect i t st).2).2).connections = none ∧
    alookup i ((McpManager.disconnect i (McpManager.connect i t st).2).2).tool_cache = none ∧
    alookup i ((McpManager.disconnect i (McpManager.connect i t st).2).2).health = none := by
  obtain ⟨h1, h2⟩ := disconnect_state i st
  obtain ⟨h3, h4⟩ := disconnect_state i (McpManager.connect i t st).2
  refine ⟨h1, ?_, ?_, ?_, h3, ?_, ?_, ?_⟩ <;>
    first
      | (rw [h2]; exact alookup_aerase_self i _)
      | (rw [h4]; exact alookup_aerase_self i _)

/-- Claim C5 counterexample: a server answers the handshake correctly but
the initialized notification fails to send; initialize then returns that
failure instead of completing successfully — yet the connected flag is set
and the ServerInfo recorded.  The claim that initialize still completes
successfully with the parsed ServerInfo is false on this input. -/
theorem c5_counterexample :
    (McpConnection.init McpConnection.new (Except.ok tNotifFail)).1
      = Except.error (McpError.TransportError "Write error: Broken pipe (os error 32)") ∧
    ((McpConnection.init McpConnection.new (Except.ok tNotifFail)).2).connected = true ∧
    ((McpConnection.init McpConnection.new (Except.ok tNotifFail)).2).server_info
      = some siEcho :=
  ⟨rfl, rfl, rfl⟩

/-- Claim C5 amended: when the handshake reply parses as a ServerInfo but
sending the subsequent initialized notification fails, initialize fails
with that notification error (the failure propagates), but the Ready
transition is not rolled back: the connected flag remains true and the
parsed ServerInfo remains recorded. -/
theorem c5_notification_failure (c : McpConnection) (t : Transport) (resp : Json)
    (si : ServerInfo) (e : McpError)
    (h1 : (McpConnection.sendRequest "initialize" initParams
        { c with transport := some t }).1 = Except.ok resp)
    (h2 : parseServerInfo resp = some si)
    (h3 : (McpConnection.sendNotification "notifications/initialized" (Json.obj [])
        { (McpConnection.sendRequest "initialize" initParams
            { c with transport := some t }).2 with
          server_info := some si, connected := true }).1 = Except.error e) :
    (McpConnection.init c (Except.ok t)).1 = Except.error e ∧
    ((McpConnection.init c (Except.ok t)).2).connected = true ∧
    ((McpConnection.init c (Except.ok t)).2).server_info = some si := by
  have key : McpConnection.init c (Except.ok t)
      = (Except.error e, (McpConnection.sendNotification "notifications/initialized"
          (Json.obj [])
          { (McpConnection.sendRequest "initialize" initParams
              { c with transport := some t }).2 with
            server_info := some si, connected := true }).2) := by
    simp only [McpConnection.init, h1, h2, h3]
  rw [key]
  refine ⟨rfl, ?_, ?_⟩
  · rw [sendNotification_connected_eq]
  · rw [sendNotification_server_info_eq]

/-- Claim C5 amended witness: the concrete broken-pipe scenario, driven
through the amended theorem. -/
theorem c5_witness :
    (McpConnection.init McpConnection.new (Except.ok tNotifFail)).1
      = Except.error (McpError.TransportError "Write error: Broken pipe (os error 32)") ∧
    ((McpConnection.init McpConnection.new (Except.ok tNotifFail)).2).connected = true := by
  have h := c5_notification_failure McpConnection.new tNotifFail
    (Json.obj [("name", Json.str "echo")]) siEcho
    (McpError.TransportError "Write error: Broken pipe (os error 32)") rfl rfl rfl
  exact ⟨h.1, h.2.1⟩

/-- Claim C6 counterexample: after a successful initialize and a shutdown
(flag false), calling initialize again on the same Connection object with a
fresh transport succeeds and sets the connected flag back to true — the
flag does not stay false forever after shutdown. -/
theorem c6_counterexample :
    ((McpConnection.shutdown
        (McpConnection.init McpConnection.new (Except.ok tInitOnly)).2).2).connected = false ∧
    ((McpConnection.init
        (McpConnection.shutdown
          (McpConnection.init McpConnection.new (Except.ok tInitOnly)).2).2
        (Except.ok tInitOnly)).2).connected = true :=
  ⟨rfl, rfl⟩

/-- Claim C6 amended: at every reachable connection state the connected
flag is true only when the Transport is present and a ServerInfo has been
recorded (handshake completed); shutdown always clears the flag; but the
flag is not irreversibly false after shutdown: any later initialize that
returns success on the same Connection object leaves the flag true again. -/
theorem c6_connected_flag (c : McpConnection) (h : ConnReach c) :
    (c.connected = true → ((c.transport).isSome = true ∧ (c.server_info).isSome = true)) ∧
    ((McpConnection.shutdown c).2).connected = false ∧
    (∀ t si c2, McpConnection.init c (Except.ok t) = (Except.ok si, c2) →
      c2.connected = true) := by
  refine ⟨conn_inv h, shutdown_connected c, ?_⟩
  intro t si c2 hinit
  exact init_ok_connected c (Except.ok t) si c2 hinit

/-- Claim C6 amended witness: the state reached by one successful
initialize is Ready with transport and ServerInfo present. -/
theorem c6_witness :
    (((McpConnection.init McpConnection.new (Except.ok tInitOnly)).2).transport).isSome = true ∧
    (((McpConnection.init McpConnection.new (Except.ok tInitOnly)).2).server_info).isSome
      = true := by
  have h := c6_connected_flag (McpConnection.init McpConnection.new (Except.ok tInitOnly)).2
    (ConnReach.init (Except.ok tInitOnly) ConnReach.new)
  exact h.1 rfl

/-- Claim C7: whenever the tools/call JSON-RPC exchange itself succeeds (no
transport failure, no error object in the reply envelope — send_request
returned the result body), call_tool fails with a ToolError exactly when
the result body carries an embedded error field, and otherwise returns the
result's content field value unchanged (Null when absent, as serde's index
yields). -/
theorem c7_call_tool_result (c : McpConnection) (n : String) (a resBody : Json)
    (h : (McpConnection.sendRequest "tools/call"
        (Json.obj [("name", Json.str n), ("arguments", a)]) c).1 = Except.ok resBody) :
    (McpConnection.call_tool n a c).1 =
      (match resBody.get "error" with
       | some err => Except.error (McpError.ToolError (Json.render err))
       | none => Except.ok (resBody.index "content")) := by
  cases hr : resBody.get "error" with
  | some err => simp [McpConnection.call_tool, h, hr]
  | none => simp [McpConnection.call_tool, h, hr]

/-- Claim C7 witness: the spec scenario — a tools/call reply whose result
is a content array — returns that content value unchanged. -/
theorem c7_witness :
    (McpConnection.call_tool "add" (Json.obj []) connCall).1 = Except.ok contentVal := by
  have h := c7_call_tool_result connCall "add" (Json.obj [])
    (Json.obj [("content", contentVal)]) rfl
  exact h.trans (by rfl)

/-- Claim C8: health_check has no error channel (its type returns the new
registry state, never a failure), and for every server id tracked in the
connection map it writes that server's probed status into the health map:
Healthy when the connection reports connected and the ping succeeds,
Unhealthy when it reports connected and the ping fails, Disconnected when
it reports not connected. -/
theorem c8_health_check (st : McpManager) (i : String) (conn : McpConnection)
    (hnd : (st.connections.map Prod.fst).Nodup)
    (hl : alookup i st.connections = some conn) :
    alookup i ((McpManager.health_check st).health) = some (probe conn).1 := by
  simp only [McpManager.health_check]
  exact health_sweep_lookup st.connections st.health i conn hnd hl

/-- Claim C8 witness: the spec scenario — a connected server whose process
has exited is marked Unhealthy, a never-connected entry Disconnected. -/
theorem c8_witness :
    alookup "a" ((McpManager.health_check mgrTwo).health) = some ServerHealth.Unhealthy ∧
    alookup "b" ((McpManager.health_check mgrTwo).health) = some ServerHealth.Disconnected := by
  have ha := c8_health_check mgrTwo "a" connDead (by decide) rfl
  have hb := c8_health_check mgrTwo "b" McpConnection.new (by decide) rfl
  exact ⟨ha.trans (by rfl), hb.trans (by rfl)⟩

/-- Claim C9: at every reachable Registry state, every key of the
tool-cache map is also a key of the connection map, and therefore find_tool
never returns a pair whose server id is not currently present in the
connection map. -/
theorem c9_find_tool_server_present (st : McpManager) (h : MgrReach st) :
    (∀ id, (alookup id st.tool_cache).isSome = true →
      (alookup id st.connections).isSome = true) ∧
    (∀ n sid tool, McpManager.find_tool n st = some (sid, tool) →
      (alookup sid st.connections).isSome = true) := by
  refine ⟨mgr_inv h, ?_⟩
  intro n sid tool hf
  exact mgr_inv h sid (findToolGo_isSome st.tool_cache n sid tool hf)

/-- Claim C9 witness: in the registry reached by one successful connect,
find_tool resolves "add" to server "s", which is present in the connection
map. -/
theorem c9_witness :
    McpManager.find_tool "add" mgrHappy = some ("s", toolAdd) ∧
    (alookup "s" mgrHappy.connections).isSome = true := by
  have h := c9_find_tool_server_present mgrHappy
    (MgrReach.connect "s" (Except.ok tHappy) MgrReach.new)
  exact ⟨rfl, h.2 "add" "s" toolAdd rfl⟩

/-- Claim C10: list_tools is the transport exchange followed by the pure
catalog extraction — it returns an error exactly when the exchange does,
and the extraction never fails: when the result lacks a tools field or its
tools field is not an array, the catalog is empty (and individually
unparseable entries are dropped by the filterMap inside extractTools). -/
theorem c10_list_tools_never_fails_on_shape (c : McpConnection) :
    ((McpConnection.list_tools c).1
      = Except.map extractTools (McpConnection.sendRequest "tools/list" (Json.obj []) c).1) ∧
    (∀ r : Json, Json.asArray (Json.index r "tools") = none → extractTools r = []) := by
  constructor
  · cases h : (McpConnection.sendRequest "tools/list" (Json.obj []) c).1 with
    | error e => simp [McpConnection.list_tools, h, Except.map]
    | ok r => simp [McpConnection.list_tools, h, Except.map]
  · intro r hr
    simp [extractTools, hr]

/-- Claim C10 witness: a reply whose result has no tools field yields a
successful empty catalog. -/
theorem c10_witness :
    (McpConnection.list_tools connNoTools).1 = Except.ok [] := by
  have h := c10_list_tools_never_fails_on_shape connNoTools
  have h2 := h.2 (Json.obj []) rfl
  calc (McpConnection.list_tools connNoTools).1
      = Except.map extractTools
          (McpConnection.sendRequest "tools/list" (Json.obj []) connNoTools).1 := h.1
    _ = Except.ok (extractTools (Json.obj [])) := rfl
    _ = Except.ok [] := by rw [h2]
